import Mathlib

/-!
Shallow embedding of the audience filter-to-SQL compiler in
`src/services/AudienceBigQueryAdapter.ts` (second evolution of the file:
the configuration-driven adapter).  TypeScript strings are Lean `String`,
template literals become explicit `++` concatenations with the exact
whitespace of the source templates, the `CohortFilter` value union
`string | number | string[]` becomes an inductive `FilterValue`, optional
arguments become `Option`, JavaScript truthiness is modelled explicitly,
and thrown exceptions become `Except String`.  The TypeScript attribute
named `alias` is rendered `objAlias` because `alias` is reserved in Lean.
-/

set_option maxRecDepth 8000

namespace Adapter

/-- The single-quote character, written by code point to keep source text plain. -/
def squote : Char := Char.ofNat 39

/-- The single-quote character as a one-character string. -/
def squoteStr : String := String.mk [squote]

/-- JavaScript `Array.prototype.join(sep)` on a list of strings. -/
def jsJoin (sep : String) : List String → String
  | [] => ""
  | [a] => a
  | a :: b :: rest => a ++ sep ++ jsJoin sep (b :: rest)

/-- A field entry of an object catalog.  The adapter only reads `name` and
`isDisplayable` from the untyped `fields: any[]` arrays, so the embedding
keeps exactly those two attributes. -/
structure Field where
  name : String
  isDisplayable : Bool

/-- The `object` payload of an audience configuration entry:
`{ bigqueryTable: string; fields: any[] }`. -/
structure BQObject where
  bigqueryTable : String
  fields : List Field

/-- One `{ object, alias }` entry of `audienceConfig.objects`. -/
structure AudienceObject where
  object : BQObject
  objAlias : String

/-- One `{ joinCondition }` entry of `audienceConfig.relationships`. -/
structure Relationship where
  joinCondition : String

/-- The `audienceConfig` argument of the adapter methods. -/
structure AudienceConfig where
  objects : List AudienceObject
  relationships : List Relationship

/-- The `value` of a `CohortFilter`: `string | number | string[]` in the
TypeScript union; arrays are modelled recursively because `formatValue`
recurses through them. -/
inductive FilterValue where
  | str : String → FilterValue
  | num : Int → FilterValue
  | arr : List FilterValue → FilterValue

/-- A `CohortFilter` record (the `id` and `category` attributes are never
read by the SQL compiler and are omitted). -/
structure CohortFilter where
  field : String
  operator : String
  value : FilterValue
  logicalOperator : Option String

/-- The `CohortFilters` record: two independently compiled filter lists. -/
structure CohortFilters where
  companyFilters : List CohortFilter
  contactFilters : List CohortFilter

/-- Double every single-quote character of a character list; the character
translation of the regex replace `value.replace(/'/g, "''")`. -/
def escChars : List Char → List Char
  | [] => []
  | c :: rest => if c = squote then squote :: squote :: escChars rest else c :: escChars rest

/-- Double every single-quote character of a string. -/
def escapeQuotes (s : String) : String := String.mk (escChars s.data)

mutual

/-- JavaScript stringification used by template literals such as
`` `%${value}%` ``: strings pass through, numbers print, arrays join their
stringified elements with a comma. -/
def valueToJSString : FilterValue → String
  | .str s => s
  | .num n => toString n
  | .arr l => jsJoin (",") (valueToJSStringList l)

/-- Stringify each element of a list of values. -/
def valueToJSStringList : List FilterValue → List String
  | [] => []
  | v :: rest => valueToJSString v :: valueToJSStringList rest

end

mutual

/-- Embedding of `formatValue`: strings become single-quoted literals with
internal quotes doubled, numbers print bare, arrays format each element and
join with a comma and a space. -/
def formatValue : FilterValue → String
  | .str s => squoteStr ++ escapeQuotes s ++ squoteStr
  | .num n => toString n
  | .arr l => jsJoin (", ") (formatValueList l)

/-- Format each element of a list of values, as in `value.map(v => this.formatValue(v))`. -/
def formatValueList : List FilterValue → List String
  | [] => []
  | v :: rest => formatValue v :: formatValueList rest

end

/-- The static legacy mapping table inside `mapFilterFieldToBigQueryField`,
as a partial lookup (`none` when the key is absent from the record). -/
def legacyFieldMapping (field : String) : Option String :=
  if field = "Account_size" then some ("employee_count")
  else if field = "Account_country" then some ("country")
  else if field = "Account_industry" then some ("industry")
  else if field = "company_name" then some ("company_name")
  else if field = "opportunity_stage" then some ("opportunity_stage")
  else if field = "page_views" then some ("page_views")
  else if field = "referrer_domain" then some ("referrer_domain")
  else if field = "utm_params" then some ("utm_params")
  else if field = "Linkedin_Followers" then some ("linkedin_followers")
  else if field = "Intent_Score" then some ("intent_score")
  else if field = "job_title" then some ("job_title")
  else if field = "seniority_level" then some ("seniority_level")
  else if field = "first_name" then some ("first_name")
  else if field = "last_name" then some ("last_name")
  else if field = "email" then some ("email")
  else if field = "email_opens" then some ("email_opens")
  else if field = "email_clicks" then some ("email_clicks")
  else if field = "website_visits" then some ("website_visits")
  else if field = "content_downloads" then some ("content_downloads")
  else if field = "social_engagement" then some ("social_engagement")
  else none

/-- Embedding of `mapFilterFieldToBigQueryField`: `fieldMapping[field] || field`. -/
def mapFilterFieldToBigQueryField (field : String) : String :=
  match legacyFieldMapping field with
  | some mapped => mapped
  | none => field

/-- Resolution of the actual column name in `buildSingleFilterCondition`:
when a nonempty catalog is supplied, look the field up there (the found
entry contributes its own `name`, the miss passes the raw name through);
otherwise fall back to the legacy static mapping. -/
def resolveFieldName (filterField : String) (fields : Option (List Field)) : String :=
  match fields with
  | some fs =>
    if fs.length > 0 then
      match fs.find? (fun f => f.name = filterField) with
      | some fieldConfig => fieldConfig.name
      | none => filterField
    else mapFilterFieldToBigQueryField filterField
  | none => mapFilterFieldToBigQueryField filterField

/-- Embedding of `buildSingleFilterCondition`: one `alias.column OP literal`
snippet per filter, switching on the operator string with `equals` as the
default branch, and `in`/`not_in` degrading to equality on non-array values. -/
def buildSingleFilterCondition (filter : CohortFilter) (tableAlias : String)
    (fields : Option (List Field)) : String :=
  let fieldName := tableAlias ++ "." ++ resolveFieldName filter.field fields
  if filter.operator = "equals" then fieldName ++ " = " ++ formatValue filter.value
  else if filter.operator = "not_equals" then fieldName ++ " != " ++ formatValue filter.value
  else if filter.operator = "greater_than" then fieldName ++ " > " ++ formatValue filter.value
  else if filter.operator = "less_than" then fieldName ++ " < " ++ formatValue filter.value
  else if filter.operator = "contains" then
    fieldName ++ " LIKE " ++ formatValue (.str ("%" ++ valueToJSString filter.value ++ "%"))
  else if filter.operator = "not_contains" then
    fieldName ++ " NOT LIKE " ++ formatValue (.str ("%" ++ valueToJSString filter.value ++ "%"))
  else if filter.operator = "in" then
    match filter.value with
    | .arr l => fieldName ++ " IN (" ++ jsJoin (", ") (formatValueList l) ++ ")"
    | v => fieldName ++ " = " ++ formatValue v
  else if filter.operator = "not_in" then
    match filter.value with
    | .arr l => fieldName ++ " NOT IN (" ++ jsJoin (", ") (formatValueList l) ++ ")"
    | v => fieldName ++ " != " ++ formatValue v
  else fieldName ++ " = " ++ formatValue filter.value

/-- Close the running group of `buildFilterConditions`: join its members
with the running connector (defaulting to AND), parenthesize only groups of
more than one condition, and append to the pushed output list; an empty
group leaves the output untouched. -/
def closeGroup (conditions : List String) (currentGroup : List String)
    (currentLogicalOp : Option String) : List String :=
  if currentGroup.length > 0 then
    let groupCondition := jsJoin (" " ++ currentLogicalOp.getD ("AND") ++ " ") currentGroup
    conditions ++ [if currentGroup.length > 1 then "(" ++ groupCondition ++ ")" else groupCondition]
  else conditions

/-- The loop body of `buildFilterConditions` over the remaining filters,
carrying the pushed groups, the open group, and the running connector. -/
def bfcLoop (tableAlias : String) (fields : Option (List Field)) :
    List CohortFilter → List String → List String → Option String → List String
  | [], conditions, currentGroup, currentLogicalOp =>
    closeGroup conditions currentGroup currentLogicalOp
  | f :: rest, conditions, currentGroup, currentLogicalOp =>
    let condition := buildSingleFilterCondition f tableAlias fields
    if f.logicalOperator = currentLogicalOp then
      bfcLoop tableAlias fields rest conditions (currentGroup ++ [condition]) currentLogicalOp
    else
      bfcLoop tableAlias fields rest (closeGroup conditions currentGroup currentLogicalOp)
        [condition] f.logicalOperator

/-- Embedding of `buildFilterConditions`: seed the group with the first
filter and its own connector, walk the rest grouping adjacent filters with
equal connectors, flush the last group, and join the pushed groups with AND. -/
def buildFilterConditions (filters : List CohortFilter) (tableAlias : String)
    (fields : Option (List Field)) : String :=
  match filters with
  | [] => ""
  | f0 :: rest =>
    let c0 := buildSingleFilterCondition f0 tableAlias fields
    jsJoin (" AND ") (bfcLoop tableAlias fields rest [] [c0] f0.logicalOperator)

/-- JavaScript `haystack.includes(needle)` on strings. -/
def jsIncludes (haystack needle : String) : Bool :=
  decide (needle.data <:+: haystack.data)

/-- JavaScript truthiness of an optional string: `undefined` and the empty
string are falsy. -/
def jsTruthyStr : Option String → Bool
  | none => false
  | some s => !(s == "")

/-- JavaScript `a || b` on optional strings, as in
`connectionId || this.defaultConnectionId`. -/
def jsOrStr (a b : Option String) : Option String :=
  match a with
  | some s => if s = "" then b else some s
  | none => b

/-- The SELECT list built by `generateCohortSQL`: for each configured
object, every displayable field as `alias.name as alias_name`. -/
def selectFieldsOf (objects : List AudienceObject) : List String :=
  (objects.map (fun obj =>
    (obj.object.fields.filter (fun f => f.isDisplayable)).map
      (fun field => obj.objAlias ++ "." ++ field.name ++ " as " ++
        obj.objAlias ++ "_" ++ field.name))).flatten

/-- The FROM list built by `generateCohortSQL`: only the object at index 0
contributes a FROM target. -/
def fromClausesOf (objects : List AudienceObject) : List String :=
  match objects with
  | [] => []
  | obj :: _ => ["`{project}." ++ obj.object.bigqueryTable ++ "` " ++ obj.objAlias]

/-- The JOIN list built by `generateCohortSQL`: each object after index 0
is joined via the first relationship whose join condition textually
contains that object alias; with no such relationship the object
contributes no JOIN at all. -/
def joinClausesOf (objects : List AudienceObject) (relationships : List Relationship) :
    List String :=
  match objects with
  | [] => []
  | _ :: rest =>
    rest.filterMap (fun obj =>
      (relationships.find? (fun r => jsIncludes r.joinCondition obj.objAlias)).map
        (fun relationship =>
          "JOIN `{project}." ++ obj.object.bigqueryTable ++ "` " ++ obj.objAlias ++
            " ON " ++ relationship.joinCondition))

/-- The WHERE condition list of `generateCohortSQL`: company filters compile
against the object at index 0, contact filters against the object at
index 1; nonempty compiled conditions are wrapped in parentheses. -/
def whereConditionsOf (filters : CohortFilters) (objects : List AudienceObject) :
    List String :=
  let companyPart :=
    match objects with
    | [] => []
    | o0 :: _ =>
      if filters.companyFilters.length > 0 then
        let companyConditions :=
          buildFilterConditions filters.companyFilters o0.objAlias (some o0.object.fields)
        if companyConditions = "" then [] else ["(" ++ companyConditions ++ ")"]
      else []
  let contactPart :=
    match objects with
    | _ :: o1 :: _ =>
      if filters.contactFilters.length > 0 then
        let contactConditions :=
          buildFilterConditions filters.contactFilters o1.objAlias (some o1.object.fields)
        if contactConditions = "" then [] else ["(" ++ contactConditions ++ ")"]
      else []
    | _ => []
  companyPart ++ contactPart

/-- Embedding of the configuration-driven `generateCohortSQL`, preserving
the exact template whitespace; the `limit` suffix is appended only when the
limit argument is truthy (present and nonzero). -/
def generateCohortSQL (filters : CohortFilters) (audienceConfig : AudienceConfig)
    (limit : Option Int) : String :=
  let selectFields := selectFieldsOf audienceConfig.objects
  let fromClauses := fromClausesOf audienceConfig.objects
  let joinClauses := joinClausesOf audienceConfig.objects audienceConfig.relationships
  let sql0 := "\n      SELECT DISTINCT\n        " ++ jsJoin (",\n        ") selectFields ++
    "\n      FROM " ++ jsJoin (", ") fromClauses ++ "\n    "
  let sql1 :=
    if joinClauses.length > 0 then sql0 ++ "\n      " ++ jsJoin ("\n      ") joinClauses
    else sql0
  let whereConditions := whereConditionsOf filters audienceConfig.objects
  let sql2 :=
    if whereConditions.length > 0 then
      sql1 ++ "\n      WHERE " ++ jsJoin (" AND ") whereConditions
    else sql1
  match limit with
  | some l => if l = 0 then sql2 else sql2 ++ "\n      LIMIT " ++ toString l
  | none => sql2

/-- The per-instance mutable state of the adapter class: the default
connection id set by `setDefaultConnectionId`. -/
structure AdapterState where
  defaultConnectionId : Option String

/-- The `generateCohortSQL` method seen as running on an adapter instance.
Its TypeScript body never reads the instance (in particular not
`this.defaultConnectionId`), so the embedding forwards to the pure
`generateCohortSQL` regardless of the state. -/
def generateCohortSQLMethod (_st : AdapterState) (filters : CohortFilters)
    (audienceConfig : AudienceConfig) (limit : Option Int) : String :=
  generateCohortSQL filters audienceConfig limit

/-- Accumulate decimal digits, as `parseInt` does after selecting them. -/
def digitsToNat : List Char → Nat → Nat
  | [], acc => acc
  | c :: rest, acc => digitsToNat rest (acc * 10 + (c.toNat - 48))

/-- Leading decimal digits of a character list. -/
def takeDigits : List Char → List Char
  | [] => []
  | c :: rest => if c.isDigit then c :: takeDigits rest else []

/-- JavaScript `parseInt` in base 10 restricted to what the adapter feeds
it: optional leading spaces, an optional sign, then leading digits; `none`
models the `NaN` outcome. -/
def jsParseInt (s : String) : Option Int :=
  match s.data.dropWhile (fun c => c = ' ') with
  | [] => none
  | c :: rest =>
    if c = '-' then
      match takeDigits rest with
      | [] => none
      | ds => some (-(Int.ofNat (digitsToNat ds 0)))
    else if c = '+' then
      match takeDigits rest with
      | [] => none
      | ds => some (Int.ofNat (digitsToNat ds 0))
    else
      match takeDigits (c :: rest) with
      | [] => none
      | ds => some (Int.ofNat (digitsToNat ds 0))

/-- JavaScript `parseInt(s) || 0`: the `NaN` case collapses to `0` (and a
parsed `0` stays `0`). -/
def jsParseIntOr0 (s : String) : Int := (jsParseInt s).getD 0

/-- A row of the count query result, exposing the two aggregate columns the
adapter reads (stringly typed, as BigQuery returns them). -/
structure CountRow where
  company_count : String
  people_count : String

/-- The result record of count mode. -/
structure CohortCounts where
  companyCount : Int
  peopleCount : Int
deriving Repr, DecidableEq

/-- The error message thrown when no connection id is available. -/
def noConnectionMsg : String :=
  "No BigQuery connection ID provided. Please set a default connection or pass one explicitly."

/-- The error message thrown when parent or child object resolution fails. -/
def missingConfigMsg : String := "Missing company or contact object configuration"

/-- Parent-object resolution: the first configured object whose field list
holds a field named `ic_acc_name`. -/
def findCompanyObject (objects : List AudienceObject) : Option AudienceObject :=
  objects.find? (fun o => o.object.fields.any (fun f => f.name = "ic_acc_name"))

/-- Child-object resolution: the first configured object whose field list
holds a field named `ic_fname`. -/
def findContactObject (objects : List AudienceObject) : Option AudienceObject :=
  objects.find? (fun o => o.object.fields.any (fun f => f.name = "ic_fname"))

/-- The `qualified_companies` CTE of count mode, with the exact template
whitespace. -/
def qualifiedCompanyCTECount (companyAlias companyTable companyFilterClause : String) :
    String :=
  "\n      qualified_companies AS (\n        SELECT DISTINCT " ++ companyAlias ++
    ".SalesForceID\n        FROM " ++ companyTable ++ " " ++ companyAlias ++
    "\n        " ++ companyFilterClause ++ "\n      )\n    "

/-- The full count-mode SQL template of `getCohortCountsWithConfig`. -/
def countSQLOf (qualifiedCompanyCTE contactAlias contactTable joinClause
    contactFilterClause : String) : String :=
  "\n      WITH " ++ qualifiedCompanyCTE ++
    "\n  \n      -- Count companies\n      SELECT \n        (SELECT COUNT(DISTINCT SalesForceID) FROM qualified_companies) AS company_count,\n  \n        -- Count contacts in those companies (with contact filters)\n        (\n          SELECT COUNT(DISTINCT " ++
    contactAlias ++ ".ic_cntid)\n          FROM " ++ contactTable ++ " " ++ contactAlias ++
    "\n          " ++ joinClause ++ "\n          " ++ contactFilterClause ++
    "\n        ) AS people_count\n    "

/-- Embedding of `getCohortCountsWithConfig`.  The async method becomes a
function of an abstract executor `exec : connId → sql → rows-or-error`;
thrown errors become `Except.error`.  Order of effects follows the source:
parent/child resolution throws first, then the connection id is resolved
against the instance default and checked for truthiness, then the executor
runs; an executor failure is wrapped, a success reads row 0 (defaulting
both aggregate columns to zero when the result set is empty). -/
def getCohortCountsWithConfig (filters : CohortFilters) (audienceConfig : AudienceConfig)
    (connectionId : Option String) (defaultConnectionId : Option String)
    (exec : String → String → Except String (List CountRow)) : Except String CohortCounts :=
  match findCompanyObject audienceConfig.objects, findContactObject audienceConfig.objects with
  | some companyObject, some contactObject =>
    let companyAlias := companyObject.objAlias
    let contactAlias := contactObject.objAlias
    let companyTable := "`" ++ companyObject.object.bigqueryTable ++ "`"
    let contactTable := "`" ++ contactObject.object.bigqueryTable ++ "`"
    let companyConditions :=
      buildFilterConditions filters.companyFilters companyAlias (some companyObject.object.fields)
    let companyFilterClause :=
      if companyConditions = "" then "" else "WHERE " ++ companyConditions
    let qualifiedCompanyCTE :=
      qualifiedCompanyCTECount companyAlias companyTable companyFilterClause
    let joinClause :=
      "INNER JOIN qualified_companies qc ON " ++ contactAlias ++ ".SalesForceID = qc.SalesForceID"
    let contactConditions :=
      buildFilterConditions filters.contactFilters contactAlias (some contactObject.object.fields)
    let contactFilterClause :=
      if contactConditions = "" then "" else "WHERE " ++ contactConditions
    let sql := countSQLOf qualifiedCompanyCTE contactAlias contactTable joinClause contactFilterClause
    match jsOrStr connectionId defaultConnectionId with
    | none => .error noConnectionMsg
    | some connId =>
      if connId = "" then .error noConnectionMsg
      else
        match exec connId sql with
        | .ok rows =>
          let result := rows.headD { company_count := "0", people_count := "0" }
          .ok { companyCount := jsParseIntOr0 result.company_count,
                peopleCount := jsParseIntOr0 result.people_count }
        | .error e => .error ("Failed to get cohort counts: " ++ e)
  | _, _ => .error missingConfigMsg

/-- The wide `qualified_companies` CTE of preview mode, with the exact
template whitespace and the trailing comma after the last column. -/
def qualifiedCompanyCTEPreview (companyAlias companyTable companyFilterClause : String) :
    String :=
  "\n    qualified_companies AS (\n      SELECT DISTINCT\n        " ++
    companyAlias ++ ".SalesForceID,\n        " ++
    companyAlias ++ ".ic_accid,\n        " ++
    companyAlias ++ ".ic_accuid,\n        " ++
    companyAlias ++ ".ic_acc_name,\n        " ++
    companyAlias ++ ".ic_acc_addr_street,\n        " ++
    companyAlias ++ ".ic_acc_addr_city,\n        " ++
    companyAlias ++ ".ic_acc_addr_state,\n        " ++
    companyAlias ++ ".ic_acc_addr_zip,\n        " ++
    companyAlias ++ ".ic_acc_country,\n        " ++
    companyAlias ++ ".ic_acc_country_code,\n        " ++
    companyAlias ++ ".ic_acc_continent,\n        " ++
    companyAlias ++ ".ic_acc_continent_code,\n        " ++
    companyAlias ++ ".ic_acc_url,\n        " ++
    companyAlias ++ ".ic_acc_desc,\n        " ++
    companyAlias ++ ".ic_acc_employees,\n        " ++
    companyAlias ++ ".ic_acc_revenue,\n        " ++
    companyAlias ++ ".ic_acc_size,\n        " ++
    companyAlias ++ ".ic_acc_industry,\n      FROM " ++
    companyTable ++ " " ++ companyAlias ++ "\n      " ++ companyFilterClause ++ "\n    )\n  "

/-- The company-side preview SQL: the CTE, a star select, and a hard
`LIMIT 25`. -/
def companyPreviewSQLOf (qualifiedCompanyCTE : String) : String :=
  "\n    WITH " ++ qualifiedCompanyCTE ++
    "\n    SELECT *\n    FROM qualified_companies\n    LIMIT 25;\n  "

/-- The contact-side preview SQL: the CTE, the contact column list, the
inner join to the qualified companies, the contact filter clause, and a
hard `LIMIT 25`. -/
def contactPreviewSQLOf (qualifiedCompanyCTE contactAlias contactTable
    contactFilterClause : String) : String :=
  "\n    WITH " ++ qualifiedCompanyCTE ++
    "\n    SELECT DISTINCT\n      " ++
    contactAlias ++ ".ic_cntid,\n      " ++
    contactAlias ++ ".sfContactId,\n      " ++
    contactAlias ++ ".SalesForceID,\n      " ++
    contactAlias ++ ".ic_cntuid,\n      " ++
    contactAlias ++ ".ic_accuid,\n      " ++
    contactAlias ++ ".ic_accid,\n      " ++
    contactAlias ++ ".ic_sal,\n      " ++
    contactAlias ++ ".ic_fname,\n      " ++
    contactAlias ++ ".ic_lname,\n      " ++
    contactAlias ++ ".ic_jtitle,\n      " ++
    contactAlias ++ ".ic_jlvl,\n      " ++
    contactAlias ++ ".ic_jfunc,\n      " ++
    contactAlias ++ ".ic_email,\n      " ++
    contactAlias ++ ".ic_li,\n      " ++
    contactAlias ++ ".ic_head,\n    FROM " ++
    contactTable ++ " " ++ contactAlias ++
    "\n    INNER JOIN qualified_companies qc ON " ++ contactAlias ++
    ".SalesForceID = qc.SalesForceID\n    " ++ contactFilterClause ++ "\n    LIMIT 25;\n  "

/-- Embedding of `getCohortPreviewWithConfig`.  The method takes no row
limit from the caller; it checks the explicit connection id first (no
default fallback), resolves parent and child objects, builds both preview
SQL texts, and runs both through the executor (`Promise.all` becomes a
fail-fast pairing; the generic row type `ρ` models the untyped rows). -/
def getCohortPreviewWithConfig {ρ : Type} (filters : CohortFilters)
    (audienceConfig : AudienceConfig) (connectionId : Option String)
    (exec : String → String → Except String (List ρ)) :
    Except String (List ρ × List ρ) :=
  match connectionId with
  | none => .error noConnectionMsg
  | some connId =>
    if connId = "" then .error noConnectionMsg
    else
      match findCompanyObject audienceConfig.objects,
            findContactObject audienceConfig.objects with
      | some companyObject, some contactObject =>
        let companyAlias := companyObject.objAlias
        let contactAlias := contactObject.objAlias
        let companyTable := "`" ++ companyObject.object.bigqueryTable ++ "`"
        let contactTable := "`" ++ contactObject.object.bigqueryTable ++ "`"
        let companyConditions :=
          buildFilterConditions filters.companyFilters companyAlias
            (some companyObject.object.fields)
        let contactConditions :=
          buildFilterConditions filters.contactFilters contactAlias
            (some contactObject.object.fields)
        let companyFilterClause :=
          if companyConditions = "" then "" else "WHERE " ++ companyConditions
        let contactFilterClause :=
          if contactConditions = "" then "" else "WHERE " ++ contactConditions
        let qualifiedCompanyCTE :=
          qualifiedCompanyCTEPreview companyAlias companyTable companyFilterClause
        let companyPreviewSQL := companyPreviewSQLOf qualifiedCompanyCTE
        let contactPreviewSQL :=
          contactPreviewSQLOf qualifiedCompanyCTE contactAlias contactTable contactFilterClause
        match exec connId companyPreviewSQL, exec connId contactPreviewSQL with
        | .ok companyPreview, .ok contactPreview => .ok (companyPreview, contactPreview)
        | .error e, _ => .error e
        | _, .error e => .error e
      | _, _ => .error missingConfigMsg

/-- Strip the first and last character of a string: the inverse of wrapping
a literal in its outer single quotes. -/
def stripOuterQuotes (s : String) : String := String.mk ((s.data.drop 1).dropLast)

/-- Collapse every doubled single-quote back to a single one. -/
def collapseChars : List Char → List Char
  | [] => []
  | [c] => [c]
  | c1 :: c2 :: rest =>
    if c1 = squote ∧ c2 = squote then squote :: collapseChars rest
    else c1 :: collapseChars (c2 :: rest)

/-- Collapse every doubled single-quote of a string back to a single one. -/
def collapseQuotes (s : String) : String := String.mk (collapseChars s.data)

theorem collapseChars_cons_ne (c : Char) (l : List Char) (hc : ¬ c = squote) :
    collapseChars (c :: l) = c :: collapseChars l := by
  cases l with
  | nil => simp [collapseChars]
  | cons d ds => simp [collapseChars, hc]

theorem collapseChars_escChars (l : List Char) : collapseChars (escChars l) = l := by
  induction l with
  | nil => simp [escChars, collapseChars]
  | cons c rest ih =>
    by_cases hc : c = squote
    · subst hc
      simp [escChars, collapseChars, ih]
    · simp [escChars, hc, collapseChars_cons_ne, ih]

theorem stripOuterQuotes_wrap (e : String) :
    stripOuterQuotes (squoteStr ++ e ++ squoteStr) = e := by
  have hd : (squoteStr ++ e ++ squoteStr).data = squote :: (e.data ++ [squote]) := by
    simp [String.data_append, squoteStr]
  simp [stripOuterQuotes, hd]

/-- C6: `formatValue` renders every string as a single-quoted literal with
each internal single quote doubled, and the escaping round-trips: stripping
the outer quotes and collapsing the doubled quotes recovers the input
exactly. -/
theorem formatValue_string_escaping_roundtrip (s : String) :
    formatValue (.str s) = squoteStr ++ escapeQuotes s ++ squoteStr ∧
    collapseQuotes (stripOuterQuotes (formatValue (.str s))) = s := by
  refine ⟨rfl, ?_⟩
  have h1 : stripOuterQuotes (formatValue (.str s)) = escapeQuotes s := by
    have := stripOuterQuotes_wrap (escapeQuotes s)
    simpa [formatValue] using this
  rw [h1]
  simp [collapseQuotes, escapeQuotes, collapseChars_escChars]

/-- A concrete filter on field `a` with connector `lop`, for concrete runs. -/
def cfA (lop : String) : CohortFilter :=
  { field := "a", operator := "equals", value := .num 1, logicalOperator := some lop }

/-- A concrete filter on field `b` with connector `lop`, for concrete runs. -/
def cfB (lop : String) : CohortFilter :=
  { field := "b", operator := "equals", value := .num 2, logicalOperator := some lop }

/-- A concrete filter on field `c` with connector `lop`, for concrete runs. -/
def cfC (lop : String) : CohortFilter :=
  { field := "c", operator := "equals", value := .num 3, logicalOperator := some lop }

/-- C1: for any three filters carrying connectors OR, OR, AND, the compiled
condition group is the parenthesized OR-pair of the first two conditions,
joined to the bare third condition with AND: `(A OR B) AND C`. -/
theorem buildFilterConditions_or_or_and (tableAlias : String) (fields : Option (List Field))
    (f1 f2 f3 : CohortFilter)
    (h1 : f1.logicalOperator = some ("OR")) (h2 : f2.logicalOperator = some ("OR"))
    (h3 : f3.logicalOperator = some ("AND")) :
    buildFilterConditions [f1, f2, f3] tableAlias fields =
      "(" ++ (buildSingleFilterCondition f1 tableAlias fields ++ " OR " ++
        buildSingleFilterCondition f2 tableAlias fields) ++ ")" ++ " AND " ++
        buildSingleFilterCondition f3 tableAlias fields := by
  simp [buildFilterConditions, bfcLoop, closeGroup, jsJoin, h1, h2, h3]

/-- C1 witness: the OR, OR, AND grouping evaluated on three concrete
equality filters over alias `t`. -/
theorem buildFilterConditions_or_or_and_witness :
    (cfA ("OR")).logicalOperator = some ("OR") ∧
    (cfB ("OR")).logicalOperator = some ("OR") ∧
    (cfC ("AND")).logicalOperator = some ("AND") ∧
    buildFilterConditions [cfA ("OR"), cfB ("OR"), cfC ("AND")] "t" none =
      "(" ++ (buildSingleFilterCondition (cfA ("OR")) "t" none ++ " OR " ++
        buildSingleFilterCondition (cfB ("OR")) "t" none) ++ ")" ++ " AND " ++
        buildSingleFilterCondition (cfC ("AND")) "t" none :=
  ⟨rfl, rfl, rfl,
    buildFilterConditions_or_or_and "t" none (cfA ("OR")) (cfB ("OR")) (cfC ("AND"))
      rfl rfl rfl⟩

/-- C2 counterexample: on the concrete filter list `[A(AND), B(OR), C(AND)]`
over alias `t`, the compiler emits `t.a = 1 AND t.b = 2 AND t.c = 3`: the
middle single-condition group is NOT parenthesized, so the claimed output
`A AND (B) AND C` is wrong. -/
theorem buildFilterConditions_and_or_and_counterexample :
    buildFilterConditions [cfA ("AND"), cfB ("OR"), cfC ("AND")] "t" none =
      "t.a = 1 AND t.b = 2 AND t.c = 3" ∧
    buildFilterConditions [cfA ("AND"), cfB ("OR"), cfC ("AND")] "t" none ≠
      "t.a = 1 AND (t.b = 2) AND t.c = 3" := by
  constructor
  · decide
  · decide

/-- C2 amended: for any three filters carrying connectors AND, OR, AND, the
compiled output joins the three bare conditions with AND and no
parentheses (`A AND B AND C`): a group of a single condition is pushed
without the parentheses the claim expects. -/
theorem buildFilterConditions_and_or_and (tableAlias : String) (fields : Option (List Field))
    (f1 f2 f3 : CohortFilter)
    (h1 : f1.logicalOperator = some ("AND")) (h2 : f2.logicalOperator = some ("OR"))
    (h3 : f3.logicalOperator = some ("AND")) :
    buildFilterConditions [f1, f2, f3] tableAlias fields =
      buildSingleFilterCondition f1 tableAlias fields ++ " AND " ++
        (buildSingleFilterCondition f2 tableAlias fields ++ " AND " ++
          buildSingleFilterCondition f3 tableAlias fields) := by
  simp [buildFilterConditions, bfcLoop, closeGroup, jsJoin, h1, h2, h3]

/-- C2 amended witness: the AND, OR, AND flattening evaluated on three
concrete equality filters over alias `t`. -/
theorem buildFilterConditions_and_or_and_witness :
    (cfA ("AND")).logicalOperator = some ("AND") ∧
    (cfB ("OR")).logicalOperator = some ("OR") ∧
    (cfC ("AND")).logicalOperator = some ("AND") ∧
    buildFilterConditions [cfA ("AND"), cfB ("OR"), cfC ("AND")] "t" none =
      buildSingleFilterCondition (cfA ("AND")) "t" none ++ " AND " ++
        (buildSingleFilterCondition (cfB ("OR")) "t" none ++ " AND " ++
          buildSingleFilterCondition (cfC ("AND")) "t" none) :=
  ⟨rfl, rfl, rfl,
    buildFilterConditions_and_or_and "t" none (cfA ("AND")) (cfB ("OR")) (cfC ("AND"))
      rfl rfl rfl⟩

/-- C7: SQL generation is pure and deterministic: the method result is
identical across any two instance states (in particular across any two
default connection ids) and across repeated invocations, and equals the
state-free function of the inputs. -/
theorem generateCohortSQL_deterministic (st1 st2 : AdapterState) (filters : CohortFilters)
    (cfg : AudienceConfig) (limit : Option Int) :
    generateCohortSQLMethod st1 filters cfg limit = generateCohortSQLMethod st2 filters cfg limit ∧
    generateCohortSQLMethod st1 filters cfg limit = generateCohortSQL filters cfg limit :=
  ⟨rfl, rfl⟩

/-- C10: the optional limit is tested by truthiness: a zero limit produces
exactly the SQL of the omitted limit, and any nonzero limit appends the
LIMIT suffix to that same base string (so the zero and omitted cases carry
no LIMIT clause). -/
theorem generateCohortSQL_limit_truthiness (filters : CohortFilters) (cfg : AudienceConfig) :
    generateCohortSQL filters cfg (some 0) = generateCohortSQL filters cfg none ∧
    ∀ l : Int, l ≠ 0 → generateCohortSQL filters cfg (some l) =
      generateCohortSQL filters cfg none ++ "\n      LIMIT " ++ toString l := by
  constructor
  · simp [generateCohortSQL]
  · intro l hl
    simp [generateCohortSQL, hl]

/-- C10 witness: the zero and five limits evaluated on empty filters and an
empty configuration. -/
theorem generateCohortSQL_limit_truthiness_witness :
    generateCohortSQL ⟨[], []⟩ ⟨[], []⟩ (some 0) = generateCohortSQL ⟨[], []⟩ ⟨[], []⟩ none ∧
    ((5 : Int) ≠ 0 ∧
      generateCohortSQL ⟨[], []⟩ ⟨[], []⟩ (some 5) =
        generateCohortSQL ⟨[], []⟩ ⟨[], []⟩ none ++ "\n      LIMIT " ++ toString (5 : Int)) :=
  ⟨(generateCohortSQL_limit_truthiness ⟨[], []⟩ ⟨[], []⟩).1,
    by decide,
    (generateCohortSQL_limit_truthiness ⟨[], []⟩ ⟨[], []⟩).2 5 (by decide)⟩

/-- A concrete company-like object: its catalog carries the parent marker
field `ic_acc_name`. -/
def sampleCompanyObject : AudienceObject :=
  { object := { bigqueryTable := "ds.accounts",
                fields := [{ name := "ic_acc_name", isDisplayable := true }] },
    objAlias := "a" }

/-- A concrete contact-like object: its catalog carries the child marker
field `ic_fname`. -/
def sampleContactObject : AudienceObject :=
  { object := { bigqueryTable := "ds.contacts",
                fields := [{ name := "ic_fname", isDisplayable := true }] },
    objAlias := "c" }

/-- A concrete relationship whose join condition mentions both aliases. -/
def sampleRelationship : Relationship :=
  { joinCondition := "c.SalesForceID = a.SalesForceID" }

/-- C4: on a two-object configuration, listing-mode SQL emits exactly one
JOIN clause when some relationship join condition textually contains the
second object alias, and zero JOIN clauses when none does; in the latter
case the generated SQL is identical to the SQL of the same configuration
with no relationships at all (the object is silently dropped from the
join, never an error). -/
theorem generateCohortSQL_two_object_join (o0 o1 : AudienceObject) (rels : List Relationship) :
    ((∃ r ∈ rels, jsIncludes r.joinCondition o1.objAlias = true) →
      (joinClausesOf [o0, o1] rels).length = 1) ∧
    ((¬ ∃ r ∈ rels, jsIncludes r.joinCondition o1.objAlias = true) →
      (joinClausesOf [o0, o1] rels).length = 0 ∧
      ∀ (filters : CohortFilters) (limit : Option Int),
        generateCohortSQL filters ⟨[o0, o1], rels⟩ limit =
          generateCohortSQL filters ⟨[o0, o1], []⟩ limit) := by
  constructor
  · intro hex
    have hs : (rels.find? (fun r => jsIncludes r.joinCondition o1.objAlias)).isSome := by
      rw [List.find?_isSome]
      obtain ⟨r, hr, hpr⟩ := hex
      exact ⟨r, hr, hpr⟩
    obtain ⟨r, hr⟩ := Option.isSome_iff_exists.mp hs
    simp [joinClausesOf, hr]
  · intro hnex
    have hnone : rels.find? (fun r => jsIncludes r.joinCondition o1.objAlias) = none := by
      cases h : rels.find? (fun r => jsIncludes r.joinCondition o1.objAlias) with
      | none => rfl
      | some r =>
        have hm : r ∈ rels := List.mem_of_find?_eq_some h
        have hp := List.find?_some
          (p := fun s : Relationship => jsIncludes s.joinCondition o1.objAlias) h
        exact absurd ⟨r, hm, hp⟩ hnex
    refine ⟨by simp [joinClausesOf, hnone], ?_⟩
    intro filters limit
    simp [generateCohortSQL, joinClausesOf, hnone]

/-- C4 witness: one matching relationship yields exactly one JOIN clause,
and no relationships yield zero JOIN clauses, on concrete company and
contact objects. -/
theorem generateCohortSQL_two_object_join_witness :
    (∃ r ∈ [sampleRelationship], jsIncludes r.joinCondition sampleContactObject.objAlias = true) ∧
    (joinClausesOf [sampleCompanyObject, sampleContactObject] [sampleRelationship]).length = 1 ∧
    (¬ ∃ r ∈ ([] : List Relationship),
      jsIncludes r.joinCondition sampleContactObject.objAlias = true) ∧
    (joinClausesOf [sampleCompanyObject, sampleContactObject] ([] : List Relationship)).length = 0 :=
  ⟨by decide,
    (generateCohortSQL_two_object_join sampleCompanyObject sampleContactObject
      [sampleRelationship]).1 (by decide),
    by simp,
    ((generateCohortSQL_two_object_join sampleCompanyObject sampleContactObject
      ([] : List Relationship)).2 (by simp)).1⟩

theorem suffix_data_append (a b : String) (l : List Char) (h : l <:+ b.data) :
    l <:+ (a ++ b).data := by
  rw [String.data_append]
  exact h.trans (List.suffix_append _ _)

/-- C5: both preview SQL texts end with the hard-coded `LIMIT 25` clause,
whatever the CTE, aliases, tables and filter clauses interpolated into
them are; the builders take no caller row limit at all, so every preview
query is capped at 25 rows on each side. -/
theorem previewSQL_hard_limit_25 (cte contactAlias contactTable contactFilterClause : String) :
    ("LIMIT 25;\n  ").data <:+ (companyPreviewSQLOf cte).data ∧
    ("LIMIT 25;\n  ").data <:+
      (contactPreviewSQLOf cte contactAlias contactTable contactFilterClause).data := by
  constructor
  · have h : ("LIMIT 25;\n  ").data <:+
        ("\n    SELECT *\n    FROM qualified_companies\n    LIMIT 25;\n  ").data := by
      decide
    exact suffix_data_append _ _ _ h
  · have h : ("LIMIT 25;\n  ").data <:+ ("\n    LIMIT 25;\n  ").data := by decide
    exact suffix_data_append _ _ _ h

/-- The sample two-object configuration with one relationship. -/
def sampleConfig : AudienceConfig :=
  { objects := [sampleCompanyObject, sampleContactObject],
    relationships := [sampleRelationship] }

/-- The empty filter specification. -/
def emptyFilters : CohortFilters := { companyFilters := [], contactFilters := [] }

/-- An executor that returns an empty result set on every query. -/
def emptyCountExec : String → String → Except String (List CountRow) := fun _ _ => .ok []

theorem jsParseIntOr0_zeroLit : jsParseIntOr0 ("0") = 0 := by decide

theorem counts_ok_empty (filters : CohortFilters) (cfg : AudienceConfig) (c : String)
    (defConn : Option String) (exec : String → String → Except String (List CountRow))
    (hc : ¬ c = "") (co cn : AudienceObject)
    (hco : findCompanyObject cfg.objects = some co)
    (hcn : findContactObject cfg.objects = some cn)
    (hex : ∀ q s, exec q s = .ok []) :
    getCohortCountsWithConfig filters cfg (some c) defConn exec =
      .ok { companyCount := 0, peopleCount := 0 } := by
  simp [getCohortCountsWithConfig, hco, hcn, jsOrStr, hc, hex, jsParseIntOr0_zeroLit]

/-- C3 counterexample: with resolvable parent and child objects, a valid
connection id, and an executor returning zero rows, count mode returns the
default zero counts successfully; no error is surfaced, contradicting the
claimed empty-result failure semantics. -/
theorem getCohortCounts_empty_result_counterexample :
    getCohortCountsWithConfig emptyFilters sampleConfig (some ("conn")) none emptyCountExec =
      .ok { companyCount := 0, peopleCount := 0 } :=
  counts_ok_empty emptyFilters sampleConfig ("conn") none emptyCountExec (by decide)
    sampleCompanyObject sampleContactObject rfl rfl (fun _ _ => rfl)

/-- C3 amended: in count mode with resolvable parent and child objects and
a truthy connection id, an executor returning an empty result set makes the
operation succeed with the default counts `companyCount = 0` and
`peopleCount = 0`; no typed error is surfaced. -/
theorem getCohortCounts_empty_result_defaults (filters : CohortFilters)
    (cfg : AudienceConfig) (c : String) (defConn : Option String)
    (exec : String → String → Except String (List CountRow))
    (hc : ¬ c = "")
    (hco : (findCompanyObject cfg.objects).isSome = true)
    (hcn : (findContactObject cfg.objects).isSome = true)
    (hex : ∀ q s, exec q s = .ok []) :
    getCohortCountsWithConfig filters cfg (some c) defConn exec =
      .ok { companyCount := 0, peopleCount := 0 } := by
  obtain ⟨co, hco2⟩ := Option.isSome_iff_exists.mp hco
  obtain ⟨cn, hcn2⟩ := Option.isSome_iff_exists.mp hcn
  exact counts_ok_empty filters cfg c defConn exec hc co cn hco2 hcn2 hex

/-- C3 amended witness: the default zero counts evaluated on the sample
configuration with the always-empty executor. -/
theorem getCohortCounts_empty_result_defaults_witness :
    (¬ ("conn" : String) = "") ∧
    (findCompanyObject sampleConfig.objects).isSome = true ∧
    (findContactObject sampleConfig.objects).isSome = true ∧
    getCohortCountsWithConfig emptyFilters sampleConfig (some ("conn")) none emptyCountExec =
      .ok { companyCount := 0, peopleCount := 0 } :=
  ⟨by decide, by decide, by decide,
    getCohortCounts_empty_result_defaults emptyFilters sampleConfig ("conn") none
      emptyCountExec (by decide) (by decide) (by decide) (fun _ _ => rfl)⟩

theorem findCompanyObject_eq_none_iff (objects : List AudienceObject) :
    findCompanyObject objects = none ↔
      ¬ ∃ o ∈ objects, ∃ f ∈ o.object.fields, f.name = "ic_acc_name" := by
  simp [findCompanyObject, List.find?_eq_none]

theorem findContactObject_eq_none_iff (objects : List AudienceObject) :
    findContactObject objects = none ↔
      ¬ ∃ o ∈ objects, ∃ f ∈ o.object.fields, f.name = "ic_fname" := by
  simp [findContactObject, List.find?_eq_none]

theorem preview_ok_empty {ρ : Type} (filters : CohortFilters) (cfg : AudienceConfig)
    (c : String) (exec : String → String → Except String (List ρ))
    (hc : ¬ c = "") (co cn : AudienceObject)
    (hco : findCompanyObject cfg.objects = some co)
    (hcn : findContactObject cfg.objects = some cn)
    (hex : ∀ q s, exec q s = .ok []) :
    getCohortPreviewWithConfig filters cfg (some c) exec = .ok ([], []) := by
  simp [getCohortPreviewWithConfig, hc, hco, hcn, hex]

/-- C8: given a nonempty connection id, count mode and preview mode fail
with the configuration error message, independently of the executor (which
is therefore never consulted), exactly when no configured object carries a
field named `ic_acc_name` or no configured object carries a field named
`ic_fname`. -/
theorem countsAndPreview_missing_config_iff (filters : CohortFilters) (cfg : AudienceConfig)
    (c : String) (defConn : Option String) (hc : ¬ c = "") :
    ((∀ exec : String → String → Except String (List CountRow),
        getCohortCountsWithConfig filters cfg (some c) defConn exec = .error missingConfigMsg) ∧
     (∀ (ρ : Type) (exec : String → String → Except String (List ρ)),
        getCohortPreviewWithConfig filters cfg (some c) exec = .error missingConfigMsg))
    ↔ ((¬ ∃ o ∈ cfg.objects, ∃ f ∈ o.object.fields, f.name = "ic_acc_name") ∨
       (¬ ∃ o ∈ cfg.objects, ∃ f ∈ o.object.fields, f.name = "ic_fname")) := by
  constructor
  · rintro ⟨hcounts, _⟩
    by_contra hboth
    push_neg at hboth
    obtain ⟨hA, hB⟩ := hboth
    have hco : findCompanyObject cfg.objects ≠ none := fun h =>
      ((findCompanyObject_eq_none_iff cfg.objects).mp h) hA
    have hcn : findContactObject cfg.objects ≠ none := fun h =>
      ((findContactObject_eq_none_iff cfg.objects).mp h) hB
    obtain ⟨co, hco2⟩ := Option.ne_none_iff_exists'.mp hco
    obtain ⟨cn, hcn2⟩ := Option.ne_none_iff_exists'.mp hcn
    have hok := counts_ok_empty filters cfg c defConn (fun _ _ => .ok []) hc co cn hco2 hcn2
      (fun _ _ => rfl)
    have herr := hcounts (fun _ _ => .ok [])
    rw [hok] at herr
    exact absurd herr (by simp)
  · intro hmiss
    have hfind : findCompanyObject cfg.objects = none ∨ findContactObject cfg.objects = none := by
      rcases hmiss with h | h
      · exact Or.inl ((findCompanyObject_eq_none_iff cfg.objects).mpr h)
      · exact Or.inr ((findContactObject_eq_none_iff cfg.objects).mpr h)
    constructor
    · intro exec
      rcases hfind with h | h
      · simp [getCohortCountsWithConfig, h]
      · rcases h2 : findCompanyObject cfg.objects with _ | co
        · simp [getCohortCountsWithConfig, h2]
        · simp [getCohortCountsWithConfig, h2, h]
    · intro ρ exec
      rcases hfind with h | h
      · simp [getCohortPreviewWithConfig, hc, h]
      · rcases h2 : findCompanyObject cfg.objects with _ | co
        · simp [getCohortPreviewWithConfig, hc, h2]
        · simp [getCohortPreviewWithConfig, hc, h2, h]

/-- A configuration holding only the company-like object, so child-object
resolution fails. -/
def cfgOnlyCompany : AudienceConfig := { objects := [sampleCompanyObject], relationships := [] }

/-- C8 witness: on a configuration with no contact-marker object and the
connection id `conn`, both modes fail with the configuration error for
every executor, matching the right side of the equivalence. -/
theorem countsAndPreview_missing_config_iff_witness :
    (¬ ("conn" : String) = "") ∧
    (((∀ exec : String → String → Except String (List CountRow),
        getCohortCountsWithConfig emptyFilters cfgOnlyCompany (some ("conn")) none exec =
          .error missingConfigMsg) ∧
      (∀ (ρ : Type) (exec : String → String → Except String (List ρ)),
        getCohortPreviewWithConfig emptyFilters cfgOnlyCompany (some ("conn")) exec =
          .error missingConfigMsg))
      ↔ ((¬ ∃ o ∈ cfgOnlyCompany.objects, ∃ f ∈ o.object.fields, f.name = "ic_acc_name") ∨
         (¬ ∃ o ∈ cfgOnlyCompany.objects, ∃ f ∈ o.object.fields, f.name = "ic_fname"))) :=
  ⟨by decide,
    countsAndPreview_missing_config_iff emptyFilters cfgOnlyCompany ("conn") none (by decide)⟩

theorem prefix_data_assoc (a b c t : String) :
    (a ++ (b ++ c)).data <+: (a ++ (b ++ (c ++ t))).data :=
  ⟨t.data, by simp [String.data_append, List.append_assoc]⟩

theorem resolveFieldName_unknown (filterField : String) (fields : Option (List Field))
    (hcat : ∀ fs, fields = some fs → ∀ f ∈ fs, ¬ f.name = filterField)
    (hleg : legacyFieldMapping filterField = none) :
    resolveFieldName filterField fields = filterField := by
  cases fields with
  | none => simp [resolveFieldName, mapFilterFieldToBigQueryField, hleg]
  | some fs =>
    have hfind : fs.find? (fun f => f.name = filterField) = none := by
      rw [List.find?_eq_none]
      intro f hf
      simpa using hcat fs rfl f hf
    by_cases hlen : fs.length > 0
    · simp [resolveFieldName, hlen, hfind]
    · simp [resolveFieldName, hlen, mapFilterFieldToBigQueryField, hleg]

/-- C9: a filter field name that matches no catalog entry and has no legacy
static mapping resolves to itself, and the compiled single-filter condition
starts with `tableAlias.field` verbatim; compilation is total, so no
validation error is ever raised for the unknown name. -/
theorem buildSingleFilterCondition_unknown_field_passthrough (filter : CohortFilter)
    (tableAlias : String) (fields : Option (List Field))
    (hcat : ∀ fs, fields = some fs → ∀ f ∈ fs, ¬ f.name = filter.field)
    (hleg : legacyFieldMapping filter.field = none) :
    resolveFieldName filter.field fields = filter.field ∧
    (tableAlias ++ "." ++ filter.field).data <+:
      (buildSingleFilterCondition filter tableAlias fields).data := by
  have hres := resolveFieldName_unknown filter.field fields hcat hleg
  refine ⟨hres, ?_⟩
  simp only [buildSingleFilterCondition, hres, String.append_assoc]
  repeat' split
  all_goals exact prefix_data_assoc _ _ _ _

/-- C9 witness: the unknown field `zzz` against a catalog holding only
`known` compiles to a condition beginning with `t.zzz`. -/
theorem buildSingleFilterCondition_unknown_field_passthrough_witness :
    legacyFieldMapping ("zzz") = none ∧
    resolveFieldName ("zzz") (some [{ name := "known", isDisplayable := true }]) = "zzz" ∧
    ("t" ++ "." ++ "zzz").data <+:
      (buildSingleFilterCondition
        { field := "zzz", operator := "equals", value := .num 7, logicalOperator := none }
        "t" (some [{ name := "known", isDisplayable := true }])).data :=
  ⟨by decide,
    (buildSingleFilterCondition_unknown_field_passthrough
      { field := "zzz", operator := "equals", value := .num 7, logicalOperator := none }
      "t" (some [{ name := "known", isDisplayable := true }])
      (by intro fs h f hf
          injection h with h2
          subst h2
          simp at hf
          subst hf
          decide)
      (by decide)).1,
    (buildSingleFilterCondition_unknown_field_passthrough
      { field := "zzz", operator := "equals", value := .num 7, logicalOperator := none }
      "t" (some [{ name := "known", isDisplayable := true }])
      (by intro fs h f hf
          injection h with h2
          subst h2
          simp at hf
          subst hf
          decide)
      (by decide)).2⟩

end Adapter
